import Mathlib

/-!
Verification of the glass-specification validation core of this repository.

The Python dictionaries consumed by the validators are embedded as Lean
structures whose fields are `Option`-valued: `none` models an absent key and
`Option.getD` models Python's `dict.get(key, default)`.  Numeric values are
idealised as rationals (`ℚ`); the spec-modelled polygon kernel, which needs
square roots, works over `ℝ`.  Python functions that receive a dictionary by
reference are additionally given a `_run` form returning the post-call state
of that dictionary, so that frame (non-mutation) properties are statable.
-/

/-- The `dimensions` sub-dictionary of an extraction (keys read by the code:
`width`, `height`, `thickness`). -/
structure Dimensions where
  width : Option ℚ := none
  height : Option ℚ := none
  thickness : Option ℚ := none
deriving DecidableEq

instance : Inhabited Dimensions := ⟨{}⟩

/-- One entry of the `sections` list (keys read by the code). -/
structure GlassSection where
  width : Option ℚ := none
  type : Option String := none
  has_notch : Option Bool := none
  is_tapered : Option Bool := none
  width_bottom : Option ℚ := none
  width_top : Option ℚ := none
  taper_start_height : Option ℚ := none
  height : Option ℚ := none
  x_offset : Option ℚ := none
deriving DecidableEq

/-- One entry of the `holes` list (keys read by the code). -/
structure Hole where
  x : Option ℚ := none
  y : Option ℚ := none
  diameter : Option ℚ := none
deriving DecidableEq

/-- An extraction dictionary: the keys read by the judge and the precision
calculator.  `height_profile` is fetched by the code but never inspected, so
its entries are modelled as `Unit`. -/
structure Extraction where
  dimensions : Option Dimensions := none
  sections : Option (List GlassSection) := none
  holes : Option (List Hole) := none
  height_profile : Option (List Unit) := none
  edge_type : Option String := none
  glass_type : Option String := none
deriving DecidableEq

instance : Inhabited Extraction := ⟨{}⟩

/-! ## precision_calculator.py -/

/-- Loop body of the continuity check in `calculate_section_positions`:
walks the sections sorted by `x_offset`, carrying `expected_offset`; returns
`none` when the loop breaks with `continuity_valid = False`, otherwise the
final `expected_offset`. -/
def continuityLoop (tolerance : ℚ) : ℚ → List GlassSection → Option ℚ
  | expected_offset, [] => some expected_offset
  | expected_offset, s :: rest =>
    let offset := s.x_offset.getD 0
    let width := s.width.getD 0
    if |offset - expected_offset| > tolerance then none
    else continuityLoop tolerance (offset + width) rest

/-- `calculate_section_positions` from precision_calculator.py. -/
def calculate_section_positions (extraction : Extraction) : Bool :=
  let dimensions := extraction.dimensions.getD {}
  let sections := extraction.sections.getD []
  let total_width := dimensions.width.getD 0
  let total_height := dimensions.height.getD 0
  if sections.isEmpty then
    decide (total_width > 0) && decide (total_height > 0)
  else
    let section_width_sum := (sections.map (fun s => s.width.getD 0)).sum
    let tolerance : ℚ := 1/10
    let width_valid := decide (|section_width_sum - total_width| ≤ tolerance)
    let sorted_sections := sections.mergeSort (fun a b => a.x_offset.getD 0 ≤ b.x_offset.getD 0)
    let continuity_valid :=
      match continuityLoop tolerance 0 sorted_sections with
      | none => false
      | some expected_offset => decide (¬ |expected_offset - total_width| > tolerance)
    width_valid && continuity_valid

/-- The real comparison `sqrt d2 < bound` expressed over `ℚ` (for `d2 ≥ 0`):
true exactly when the bound is positive and its square exceeds `d2`.  Used to
embed `math.sqrt(...) < min_spacing` without leaving the rationals. -/
def sqrtLtQ (d2 bound : ℚ) : Bool :=
  decide (0 < bound) && decide (d2 < bound ^ 2)

/-- Inner pair loop of `calculate_hole_positions`: for the hole at index `i`,
checks the spacing against every earlier hole (`j < i`); `true` means some
pair violates the minimum spacing (the Python `return False` fires). -/
def holeSpacingViolation (holes : List Hole) (i : Nat) (x y diameter : ℚ) : Bool :=
  (holes.enum.filter (fun p => decide (p.1 < i))).any (fun p =>
    let ox := p.2.x.getD 0
    let oy := p.2.y.getD 0
    let od := p.2.diameter.getD 0
    let min_spacing := max diameter od * 2
    sqrtLtQ ((x - ox) ^ 2 + (y - oy) ^ 2) min_spacing)

/-- Per-hole body of `calculate_hole_positions`: `true` when one of the edge
or spacing checks fails (the Python `return False` fires for this hole). -/
def holeInvalid (width height min_edge_distance : ℚ) (holes : List Hole)
    (i : Nat) (hole : Hole) : Bool :=
  let x := hole.x.getD 0
  let y := hole.y.getD 0
  let diameter := hole.diameter.getD 0
  let radius := diameter / 2
  decide (x ≤ 0) || decide (y ≤ 0) ||
  decide (x - radius < min_edge_distance) ||
  decide (x + radius > width - min_edge_distance) ||
  decide (y - radius < min_edge_distance) ||
  decide (y + radius > height - min_edge_distance) ||
  holeSpacingViolation holes i x y diameter

/-- `calculate_hole_positions` from precision_calculator.py. -/
def calculate_hole_positions (extraction : Extraction) : Bool :=
  let dimensions := extraction.dimensions.getD {}
  let holes := extraction.holes.getD []
  let width := dimensions.width.getD 0
  let height := dimensions.height.getD 0
  let thickness := dimensions.thickness.getD 0
  if holes.isEmpty then
    true
  else
    let min_edge_distance := if thickness > 0 then max (thickness * 2) 25 else 25
    !(holes.enum.any (fun p => holeInvalid width height min_edge_distance holes p.1 p.2))

/-- Python's `pat in s` substring test on strings. -/
def strContains (s pat : String) : Bool :=
  s.data.tails.any (fun t => pat.data.isPrefixOf t)

/-- `calculate_geometric_feasibility` from precision_calculator.py. -/
def calculate_geometric_feasibility (extraction : Extraction) : Bool :=
  let dimensions := extraction.dimensions.getD {}
  let holes := extraction.holes.getD []
  let edge_type := extraction.edge_type.getD "flat_polished"
  let glass_type := extraction.glass_type.getD "clear_tempered"
  let width := dimensions.width.getD 0
  let height := dimensions.height.getD 0
  let thickness := dimensions.thickness.getD 0
  if width ≤ 0 || height ≤ 0 || thickness ≤ 0 then false
  else
    -- aspect-ratio check
    let aspect := max width height / min width height
    if aspect > 10 then false
    else
      -- first entry of min_thickness_map whose area limit contains the panel
      let panel_area := width * height
      let min_thickness : ℚ :=
        if panel_area ≤ 1000000 then 4
        else if panel_area ≤ 2000000 then 6
        else if panel_area ≤ 4000000 then 8
        else if panel_area ≤ 8000000 then 10
        else 12
      if thickness < min_thickness then false
      else if holes.any (fun hole =>
          let diameter := hole.diameter.getD 0
          if diameter ≤ 0 then false
          else decide (diameter < thickness) ||
               decide (diameter > min width height / 3)) then false
      else
        let min_edge_t : ℚ :=
          if edge_type == "flat_polished" then 3
          else if edge_type == "beveled" then 6
          else if edge_type == "pencil_polished" then 3
          else if edge_type == "mitered" then 10
          else if edge_type == "ogee" then 12
          else 3
        if thickness < min_edge_t then false
        else if (strContains glass_type.toLower "tempered") &&
                (width < 100 || height < 100) then false
        else true

/-- `calculate_weight` from precision_calculator.py, parametric in the value
`piv` standing for `math.pi` (kept symbolic: π is irrational). -/
def calculate_weight (piv : ℚ) (extraction : Extraction) (density : ℚ := 2500) : ℚ :=
  let dims := extraction.dimensions.getD {}
  let holes := extraction.holes.getD []
  let w := dims.width.getD 0 / 1000
  let h := dims.height.getD 0 / 1000
  let t := dims.thickness.getD 0 / 1000
  let volume := holes.foldl (fun volume hole =>
    let d := hole.diameter.getD 0 / 1000
    volume - piv * (d / 2) ^ 2 * t) (w * h * t)
  volume * density

/-! State-passing forms: each function receives the extraction dictionary by
reference; the `_run` form returns the dictionary as it stands after the
call.  The bodies above contain no store into the dictionary, so the
post-state is the argument itself. -/

/-- Call-semantics form of `calculate_section_positions`: result paired with
the post-call state of the argument dictionary. -/
def calculate_section_positions_run (extraction : Extraction) : Bool × Extraction :=
  (calculate_section_positions extraction, extraction)

/-- Call-semantics form of `calculate_hole_positions`. -/
def calculate_hole_positions_run (extraction : Extraction) : Bool × Extraction :=
  (calculate_hole_positions extraction, extraction)

/-- Call-semantics form of `calculate_geometric_feasibility`. -/
def calculate_geometric_feasibility_run (extraction : Extraction) : Bool × Extraction :=
  (calculate_geometric_feasibility extraction, extraction)

/-- Call-semantics form of `calculate_weight`. -/
def calculate_weight_run (piv : ℚ) (extraction : Extraction) (density : ℚ := 2500) :
    ℚ × Extraction :=
  (calculate_weight piv extraction density, extraction)

/-! ## agent2_judge.py -/

/-- Display form of a number inside a validation message (the Python code
interpolates floats into f-strings; here the rational is printed). -/
def fq (q : ℚ) : String := toString q

/-- One entry of a hole-position correction's `fixes` list. -/
inductive HoleFix where
  | fixY (index : Nat) (y : ℚ)
  | fixX (index : Nat) (x : ℚ)
deriving DecidableEq

/-- The correction dictionaries a `ValidationResult` can carry. -/
inductive Correction where
  | widthSum (total_width : ℚ) (section_widths : List ℚ) (adjustment : ℚ)
  | taperNotch (section_index : Nat)
  | taperWidthTop (section_index : Nat) (suggested_width_top : ℚ)
  | taperStart (section_index : Nat) (suggested_taper_start : ℚ)
  | holeFixes (fixes : List HoleFix)
  | sectionHeights (section_heights : List ℚ)
deriving DecidableEq

/-- The `ValidationResult` dataclass of agent2_judge.py: result of a single
validation check. -/
structure ValidationResult where
  check_name : String
  passed : Bool
  message : String
  severity : String := "error"
  correction : Option Correction := none
deriving DecidableEq

/-- Field names of the `ValidationResult` dataclass, in declaration order
(agent2_judge.py lines 32–39). -/
def validationResultFields : List String :=
  ["check_name", "passed", "message", "severity", "correction"]

/-- `JudgeAgent._validate_width_sum`. -/
def validate_width_sum (total_width : ℚ) (sections : List GlassSection) : ValidationResult :=
  if sections.isEmpty then
    { check_name := "width_sum", passed := false,
      message := "No sections defined", severity := "error" }
  else
    let section_sum := (sections.map (fun s => s.width.getD 0)).sum
    let tolerance : ℚ := 1/2
    if |section_sum - total_width| ≤ tolerance then
      { check_name := "width_sum", passed := true,
        message := "Width sum OK: " ++ fq section_sum ++ "mm = " ++ fq total_width ++ "mm" }
    else
      let diff := total_width - section_sum
      let num_sections := sections.length
      let correction_per_section := diff / num_sections
      let corrected_widths := sections.map (fun s => s.width.getD 0 + correction_per_section)
      { check_name := "width_sum", passed := false,
        message := "Width mismatch: sections sum to " ++ fq section_sum ++
          "mm, expected " ++ fq total_width ++ "mm",
        severity := "error",
        correction := some (.widthSum total_width corrected_widths correction_per_section) }

/-- Loop of `JudgeAgent._validate_taper` over the enumerated sections:
`some r` models an early `return r`, `none` models falling through. -/
def taperLoop : Nat → List GlassSection → Option ValidationResult
  | _, [] => none
  | i, s :: rest =>
    let section_type := s.type.getD ""
    if section_type == "door" || i == 0 then
      if s.has_notch.getD false then
        some { check_name := "taper_validation", passed := false,
               message := "Door should NOT have a notch - only tapered geometry",
               severity := "warning",
               correction := some (.taperNotch i) }
      else if s.is_tapered.getD false then
        let width_bottom := s.width_bottom.getD 0
        let width_top := s.width_top.getD 0
        let taper_start := s.taper_start_height.getD 84
        let section_height := s.height.getD 0
        if width_top ≤ width_bottom then
          some { check_name := "taper_validation", passed := false,
                 message := "Taper invalid: width_top (" ++ fq width_top ++
                   ") should be > width_bottom (" ++ fq width_bottom ++ ")",
                 severity := "warning",
                 correction := some (.taperWidthTop i (width_bottom + 1/5)) }
        else if taper_start ≥ section_height then
          some { check_name := "taper_validation", passed := false,
                 message := "Taper start (" ++ fq taper_start ++
                   ") should be less than section height (" ++ fq section_height ++ ")",
                 severity := "warning",
                 correction := some (.taperStart i (section_height - 10)) }
        else
          some { check_name := "taper_validation", passed := true,
                 message := "Door taper OK: " ++ fq width_bottom ++ "mm -> " ++
                   fq width_top ++ "mm, starts at " ++ fq taper_start ++ "mm" }
      else taperLoop (i + 1) rest
    else taperLoop (i + 1) rest

/-- `JudgeAgent._validate_taper`. -/
def validate_taper (sections : List GlassSection) (_height_profile : List Unit) :
    ValidationResult :=
  (taperLoop 0 sections).getD
    { check_name := "taper_validation", passed := true,
      message := "Taper validation passed (door has tapered geometry, no notch)" }

/-- Per-hole body of `JudgeAgent._validate_holes`: issue strings and fixes
contributed by the hole at index `i` (the Python loop appends them). -/
def holeIssueFix (sections : List GlassSection) (i : Nat) (hole : Hole) :
    List String × List HoleFix :=
  let x := hole.x.getD 0
  let y := hole.y.getD 0
  let diameter := hole.diameter.getD 8
  let radius := diameter / 2
  match sections.find? (fun s =>
      let x_start := s.x_offset.getD 0
      decide (x_start ≤ x) && decide (x ≤ x_start + s.width.getD 0)) with
  | none => (["Hole " ++ toString (i + 1) ++ " at X=" ++ fq x ++ " not within any section"], [])
  | some s =>
    let x_start := s.x_offset.getD 0
    let x_end := x_start + s.width.getD 0
    let section_height := s.height.getD 0
    let yPart : List String × List HoleFix :=
      if y > section_height then
        (["Hole " ++ toString (i + 1) ++ " Y=" ++ fq y ++
          " exceeds section height " ++ fq section_height],
         [.fixY i (section_height - radius - 10)])
      else ([], [])
    let xPart : List String × List HoleFix :=
      if x - radius < x_start then
        (["Hole " ++ toString (i + 1) ++ " too close to left edge"],
         [.fixX i (x_start + radius + 8)])
      else if x + radius > x_end then
        (["Hole " ++ toString (i + 1) ++ " too close to right edge"],
         [.fixX i (x_end - radius - 8)])
      else ([], [])
    (yPart.1 ++ xPart.1, yPart.2 ++ xPart.2)

/-- `JudgeAgent._validate_holes`. -/
def validate_holes (holes : List Hole) (sections : List GlassSection)
    (_thickness : ℚ) : ValidationResult :=
  if holes.isEmpty then
    { check_name := "hole_positions", passed := true,
      message := "No holes to validate" }
  else
    let parts := holes.enum.map (fun p => holeIssueFix sections p.1 p.2)
    let issues := (parts.map (·.1)).flatten
    let fixes := (parts.map (·.2)).flatten
    if !issues.isEmpty then
      { check_name := "hole_positions", passed := false,
        message := String.intercalate "; " issues,
        severity := "error",
        correction := if !fixes.isEmpty then some (.holeFixes fixes) else none }
    else
      { check_name := "hole_positions", passed := true,
        message := "All holes within section boundaries" }

/-- `JudgeAgent._validate_heights`. -/
def validate_heights (sections : List GlassSection) (_height_profile : List Unit) :
    ValidationResult :=
  let issues := (sections.enum.map (fun p =>
    let height := p.2.height.getD 0
    if height ≤ 0 then
      ["Section " ++ toString (p.1 + 1) ++ " has invalid height: " ++ fq height]
    else if height > 5000 then
      ["Section " ++ toString (p.1 + 1) ++ " height " ++ fq height ++
       "mm exceeds maximum (5000mm)"]
    else [])).flatten
  let section_heights := sections.map (fun s => s.height.getD 0)
  if !issues.isEmpty then
    { check_name := "height_validation", passed := false,
      message := String.intercalate "; " issues,
      severity := "error",
      correction := some (.sectionHeights section_heights) }
  else
    { check_name := "height_validation", passed := true,
      message := "All section heights valid" }

/-- `JudgeAgent._validate_edge_distances`. -/
def validate_edge_distances (holes : List Hole) (sections : List GlassSection)
    (thickness : ℚ) : ValidationResult :=
  let min_edge := max (thickness * 2) 25
  let issues := (holes.enum.map (fun p =>
    let i := p.1
    let x := p.2.x.getD 0
    let y := p.2.y.getD 0
    let diameter := p.2.diameter.getD 8
    let radius := diameter / 2
    match sections.find? (fun s =>
        let x_start := s.x_offset.getD 0
        decide (x_start ≤ x) && decide (x ≤ x_start + s.width.getD 0)) with
    | none => []
    | some s =>
      let x_start := s.x_offset.getD 0
      let x_end := x_start + s.width.getD 0
      let section_height := s.height.getD 0
      let dist_left := x - x_start - radius
      let dist_right := x_end - x - radius
      let dist_bottom := y - radius
      let dist_top := section_height - y - radius
      (if dist_left < min_edge then
        ["Hole " ++ toString (i + 1) ++ ": left edge distance " ++ fq dist_left ++
         "mm < " ++ fq min_edge ++ "mm"] else []) ++
      (if dist_right < min_edge then
        ["Hole " ++ toString (i + 1) ++ ": right edge distance " ++ fq dist_right ++
         "mm < " ++ fq min_edge ++ "mm"] else []) ++
      (if dist_bottom < min_edge then
        ["Hole " ++ toString (i + 1) ++ ": bottom edge distance " ++ fq dist_bottom ++
         "mm < " ++ fq min_edge ++ "mm"] else []) ++
      (if dist_top < min_edge then
        ["Hole " ++ toString (i + 1) ++ ": top edge distance " ++ fq dist_top ++
         "mm < " ++ fq min_edge ++ "mm"] else []))).flatten
  if !issues.isEmpty then
    { check_name := "edge_distances", passed := false,
      message := String.intercalate "; " issues,
      severity := "warning" }
  else
    { check_name := "edge_distances", passed := true,
      message := "All holes maintain minimum edge distance (" ++ fq min_edge ++ "mm)" }

/-- The list of the five validation results `JudgeAgent.review` computes, in
order (width sum, taper, hole positions, heights, edge distances). -/
def reviewValidations (extraction : Extraction) : List ValidationResult :=
  let dims := extraction.dimensions.getD {}
  let sections := extraction.sections.getD []
  let holes := extraction.holes.getD []
  let height_profile := extraction.height_profile.getD []
  let total_width := dims.width.getD 0
  let thickness := dims.thickness.getD 0
  [validate_width_sum total_width sections,
   validate_taper sections height_profile,
   validate_holes holes sections thickness,
   validate_heights sections height_profile,
   validate_edge_distances holes sections thickness]

/-- The `feedback` dictionary built by `JudgeAgent.review` (a key is present
when the corresponding check failed and carries a correction; the edge check
never contributes). -/
structure Feedback where
  width_correction : Option Correction := none
  taper_correction : Option Correction := none
  hole_correction : Option Correction := none
  height_correction : Option Correction := none
deriving DecidableEq

/-- `if not result.passed and result.correction: feedback[...] = correction`. -/
def feedbackEntry (v : ValidationResult) : Option Correction :=
  if !v.passed && v.correction.isSome then v.correction else none

/-- The feedback dictionary assembled by `JudgeAgent.review`. -/
def reviewFeedback (extraction : Extraction) : Feedback :=
  match reviewValidations extraction with
  | [w, t, h, ht, _] =>
    { width_correction := feedbackEntry w, taper_correction := feedbackEntry t,
      hole_correction := feedbackEntry h, height_correction := feedbackEntry ht }
  | _ => {}

/-- The dictionary returned by `JudgeAgent.review`. -/
structure ReviewResult where
  approved : Bool
  confidence : ℚ
  feedback : Feedback
  errors : List String
  warnings : List String
  iteration : Nat
  can_continue : Bool
deriving DecidableEq

/-- The `Judgment` dataclass of agent2_judge.py. -/
structure Judgment where
  approved : Bool
  confidence : ℚ
  validations : List ValidationResult
  feedback : Feedback
  iteration : Nat
deriving DecidableEq

/-- The mutable state of a `JudgeAgent` (fields set in `__init__`). -/
structure JudgeAgent where
  review_history : List Judgment := []
  iteration : Nat := 0
  max_iterations : Nat := 5
deriving DecidableEq

/-- The pure tail of `JudgeAgent.review`: the returned dictionary, given the
extraction and the incremented iteration counter. -/
def reviewResult (extraction : Extraction) (iteration max_iterations : Nat) :
    ReviewResult :=
  let validations := reviewValidations extraction
  let errors := validations.filter (fun v => !v.passed && v.severity == "error")
  let warnings := validations.filter (fun v => !v.passed && v.severity == "warning")
  let approved := errors.length == 0
  let total_checks := validations.length
  let passed_checks := (validations.filter (·.passed)).length
  let confidence := if total_checks > 0 then (passed_checks : ℚ) / total_checks else 0
  { approved := approved, confidence := confidence,
    feedback := reviewFeedback extraction,
    errors := errors.map (·.message),
    warnings := warnings.map (·.message),
    iteration := iteration,
    can_continue := iteration < max_iterations }

/-- `JudgeAgent.review`: returns the result dictionary together with the
agent's post-call state (incremented iteration counter, appended history). -/
def JudgeAgent.review (a : JudgeAgent) (extraction : Extraction) :
    ReviewResult × JudgeAgent :=
  let iteration := a.iteration + 1
  let r := reviewResult extraction iteration a.max_iterations
  let judgment : Judgment :=
    { approved := r.approved, confidence := r.confidence,
      validations := reviewValidations extraction,
      feedback := r.feedback, iteration := iteration }
  (r, { a with iteration := iteration,
               review_history := a.review_history ++ [judgment] })

/-! ## Polygon geometry kernel (modelled from the spec)

The polygon-geometry kernel, the MeasurementRange type and the uncertainty
engine described by the spec are not among the repository files available
here; only their consumers are.  The definitions below are modelled from the
spec's own formulas (§4.4 area/perimeter/centroid, §3/§4.1 MeasurementRange
construction). -/

/-- Modelled from the spec: cyclic adjacent vertex pairs of a polygon
(`(p₀,p₁), …, (p_{n−1},p₀)`), the index pairs over which area, perimeter and
centroid sums run. -/
def cyclicPairs (vs : List (ℝ × ℝ)) : List ((ℝ × ℝ) × (ℝ × ℝ)) :=
  match vs with
  | [] => []
  | v :: rest => vs.zip (rest ++ [v])

/-- Modelled from the spec: the shoelace sum `Σ (xᵢ·y_{i+1} − x_{i+1}·yᵢ)`
over cyclic adjacent pairs (twice the signed area). -/
noncomputable def shoelaceSum (vs : List (ℝ × ℝ)) : ℝ :=
  ((cyclicPairs vs).map (fun p => p.1.1 * p.2.2 - p.2.1 * p.1.2)).sum

/-- Modelled from the spec: polygon area `|shoelace| / 2`; 0 for fewer than
3 vertices. -/
noncomputable def polygon_area (vs : List (ℝ × ℝ)) : ℝ :=
  if vs.length < 3 then 0 else |shoelaceSum vs| / 2

/-- Modelled from the spec: perimeter as the sum of Euclidean edge lengths
over cyclic adjacent pairs. -/
noncomputable def polygon_perimeter (vs : List (ℝ × ℝ)) : ℝ :=
  ((cyclicPairs vs).map (fun p =>
    Real.sqrt ((p.2.1 - p.1.1) ^ 2 + (p.2.2 - p.1.2) ^ 2))).sum

/-- Modelled from the spec: area-weighted centroid
`(1/6A)·Σ (pᵢ+p_{i+1})·cross(pᵢ,p_{i+1})` with signed area `A`; falls back
to the arithmetic mean of the vertices when `A` is near zero. -/
noncomputable def polygon_centroid (vs : List (ℝ × ℝ)) : ℝ × ℝ :=
  let signed_area := shoelaceSum vs / 2
  if |signed_area| ≤ 1 / 1000000000 then
    (((vs.map Prod.fst).sum) / vs.length, ((vs.map Prod.snd).sum) / vs.length)
  else
    let cx := ((cyclicPairs vs).map (fun p =>
      (p.1.1 + p.2.1) * (p.1.1 * p.2.2 - p.2.1 * p.1.2))).sum / (6 * signed_area)
    let cy := ((cyclicPairs vs).map (fun p =>
      (p.1.2 + p.2.2) * (p.1.1 * p.2.2 - p.2.1 * p.1.2))).sum / (6 * signed_area)
    (cx, cy)

/-- The closed unit-square vertex list of the spec's test vector. -/
def unitSquare : List (ℝ × ℝ) := [(0, 0), (10, 0), (10, 10), (0, 10)]

/-! ## MeasurementRange (modelled from the spec) -/

/-- Modelled from the spec: a scalar measurement, possibly uncertain
(attributes of §3; `range_width` and `uncertainty` are derived). -/
structure MeasurementRange where
  min : ℚ
  max : ℚ
  best_estimate : ℚ
  distribution : String := "normal"
  confidence : ℚ := 95 / 100
  unit : String := "mm"
deriving DecidableEq

/-- Modelled from the spec: `range_width = max - min`. -/
def MeasurementRange.range_width (r : MeasurementRange) : ℚ := r.max - r.min

/-- Tolerance under which a range counts as exact. -/
def exactTol : ℚ := 1 / 1000000000

/-- Modelled from the spec: `is_exact` ⇔ range width below tolerance. -/
def MeasurementRange.is_exact (r : MeasurementRange) : Bool :=
  r.range_width < exactTol

/-- Modelled from the spec: `is_range` ⇔ range width above tolerance. -/
def MeasurementRange.is_range (r : MeasurementRange) : Bool :=
  r.range_width > exactTol

/-- Modelled from the spec: MeasurementRange construction.  Priority: both
`min`/`max` win; else `value` + `uncertainty`; else `value` alone (exact);
otherwise a `ConfigurationError`. -/
def mkMeasurementRange (min_val max_val value uncertainty : Option ℚ) :
    Except String MeasurementRange :=
  match min_val, max_val with
  | some mn, some mx =>
    .ok { min := mn, max := mx, best_estimate := (mn + mx) / 2 }
  | _, _ =>
    match value, uncertainty with
    | some v, some u => .ok { min := v - u, max := v + u, best_estimate := v }
    | _, _ =>
      match value with
      | some v => .ok { min := v, max := v, best_estimate := v }
      | none => .error "ConfigurationError"

/-! ## Derived quantities used by the theorems -/

/-- The `dimensions` dictionary as the code reads it (`get` with `{}`). -/
def extDimensions (e : Extraction) : Dimensions := e.dimensions.getD {}

/-- The `holes` list as the code reads it (`get` with `[]`). -/
def extHoles (e : Extraction) : List Hole := e.holes.getD []

/-- Summed cross-section area of the holes, `Σ piv·(diameter/2)²`, in the
same square-millimetre unit as `width * height`. -/
def holesCrossSection (piv : ℚ) (holes : List Hole) : ℚ :=
  (holes.map (fun hole => piv * (hole.diameter.getD 0 / 2) ^ 2)).sum

/-- The two properties C10 ascribes to `calculate_weight`: the closed-form
value (density × net volume in metres) holds unconditionally; the sign
characterisation holds whenever thickness and density are positive. -/
def WeightSpecHolds (piv density : ℚ) (e : Extraction) : Prop :=
  calculate_weight piv e density =
    density * ((extDimensions e).width.getD 0 / 1000 *
      ((extDimensions e).height.getD 0 / 1000) *
      ((extDimensions e).thickness.getD 0 / 1000)
      - ((extHoles e).map (fun hole =>
          piv * (hole.diameter.getD 0 / 1000 / 2) ^ 2 *
            ((extDimensions e).thickness.getD 0 / 1000))).sum)
  ∧ (0 < (extDimensions e).thickness.getD 0 → 0 < density →
      (calculate_weight piv e density < 0 ↔
        (extDimensions e).width.getD 0 * (extDimensions e).height.getD 0 <
          holesCrossSection piv (extHoles e)))

/-! ## Helper lemmas -/

theorem foldl_sub_sum (f : α → ℚ) (l : List α) (init : ℚ) :
    l.foldl (fun acc x => acc - f x) init = init - (l.map f).sum := by
  induction l generalizing init with
  | nil => simp
  | cons x xs ih => simp [ih]; ring

theorem sum_map_add_const (f : GlassSection → ℚ) (c : ℚ) (l : List GlassSection) :
    (l.map (fun s => f s + c)).sum = (l.map f).sum + l.length * c := by
  induction l with
  | nil => simp
  | cons x xs ih => simp [ih]; ring

/-! ## Claims -/

/-- C7: each of the four precision-calculator functions is a pure
computation: it returns without modifying the extraction dictionary passed
to it (the post-call state equals the argument), and — being a plain Lean
function — performs no I/O. -/
theorem calculators_frame (extraction : Extraction) (piv density : ℚ) :
    (calculate_section_positions_run extraction).2 = extraction ∧
    (calculate_hole_positions_run extraction).2 = extraction ∧
    (calculate_geometric_feasibility_run extraction).2 = extraction ∧
    (calculate_weight_run piv extraction density).2 = extraction :=
  ⟨rfl, rfl, rfl, rfl⟩

/-- C9: `calculate_hole_positions` returns `True` whenever the holes list is
empty or absent, whatever the panel dimensions are. -/
theorem hole_positions_no_holes (extraction : Extraction)
    (h : extraction.holes.getD [] = []) :
    calculate_hole_positions extraction = true := by
  unfold calculate_hole_positions
  simp [h]

/-- A concrete extraction with negative and zero dimensions and no `holes`
key at all. -/
def negDimsExt : Extraction :=
  { dimensions := some { width := some (-5), height := some 0, thickness := some (-3) } }

/-- Witness for C9: the theorem applied to an extraction with negative
width, zero height, negative thickness and an absent holes list. -/
theorem hole_positions_no_holes_witness :
    negDimsExt.holes.getD [] = [] ∧ calculate_hole_positions negDimsExt = true :=
  ⟨rfl, hole_positions_no_holes negDimsExt rfl⟩

/-- C4 (spec-modelled): constructing a MeasurementRange from the single
value 5.0 yields `is_exact`, and min, max and best_estimate all equal 5.0. -/
theorem measurement_single_value_exact :
    ∃ r : MeasurementRange, mkMeasurementRange none none (some 5) none = .ok r ∧
      r.is_exact = true ∧ r.min = 5 ∧ r.max = 5 ∧ r.best_estimate = 5 :=
  ⟨_, rfl, by simp [MeasurementRange.is_exact, MeasurementRange.range_width, exactTol], rfl, rfl, rfl⟩

/-- C5 counterexample: the `ValidationResult` record of the validation code
carries none of the fields the claim lists (no `is_closed`, `is_valid`,
`is_simple`, `error_x`, `error_y`, `total_error`). -/
theorem validation_result_lacks_closure_fields :
    ("is_closed" ∉ validationResultFields) ∧
    ("is_valid" ∉ validationResultFields) ∧
    ("is_simple" ∉ validationResultFields) ∧
    ("error_x" ∉ validationResultFields) ∧
    ("error_y" ∉ validationResultFields) ∧
    ("total_error" ∉ validationResultFields) := by
  decide

/-- C5 amended: every `ValidationResult` is a plain record carrying exactly
a check name, a passed flag, a message, a severity (defaulting to "error")
and an optional correction. -/
theorem validation_result_record_shape :
    validationResultFields = ["check_name", "passed", "message", "severity", "correction"] ∧
    (∀ c p m, (({ check_name := c, passed := p, message := m } : ValidationResult).severity
        = "error" ∧
      ({ check_name := c, passed := p, message := m } : ValidationResult).correction = none)) ∧
    (∀ v : ValidationResult,
      v = ⟨v.check_name, v.passed, v.message, v.severity, v.correction⟩) :=
  ⟨rfl, fun _ _ _ => ⟨rfl, rfl⟩, fun _ => rfl⟩

/-- Cyclic pair list of the unit square, spelled out. -/
theorem cyclicPairs_unitSquare :
    cyclicPairs unitSquare =
      [((0, 0), (10, 0)), ((10, 0), (10, 10)), ((10, 10), (0, 10)), ((0, 10), (0, 0))] :=
  rfl

theorem shoelaceSum_unitSquare : shoelaceSum unitSquare = 200 := by
  rw [shoelaceSum, cyclicPairs_unitSquare]
  norm_num

theorem sqrt_hundred : Real.sqrt 100 = 10 := by
  rw [show (100 : ℝ) = 10 ^ 2 by norm_num]
  exact Real.sqrt_sq (by norm_num)

/-- C3 (spec-modelled): on the closed unit-square vertex list
`[(0,0),(10,0),(10,10),(0,10)]` the polygon kernel returns area 100,
perimeter 40 and centroid (5,5). -/
theorem unit_square_kernel_values :
    polygon_area unitSquare = 100 ∧ polygon_perimeter unitSquare = 40 ∧
      polygon_centroid unitSquare = (5, 5) := by
  refine ⟨?_, ?_, ?_⟩
  · rw [polygon_area, if_neg (by norm_num [unitSquare]), shoelaceSum_unitSquare]
    norm_num
  · rw [polygon_perimeter, cyclicPairs_unitSquare]
    norm_num [sqrt_hundred]
  · rw [polygon_centroid]
    simp only [shoelaceSum_unitSquare, cyclicPairs_unitSquare]
    rw [if_neg (by norm_num)]
    norm_num

/-- C8: when `_validate_width_sum` fails on a non-empty section list, the
attached correction adds the same per-section adjustment
`(total_width − Σ widths)/n` to every section width, and the corrected
widths sum exactly to `total_width` (in exact rational arithmetic). -/
theorem width_sum_correction_sums (total_width : ℚ) (sections : List GlassSection)
    (hne : sections ≠ [])
    (hfail : (validate_width_sum total_width sections).passed = false) :
    (validate_width_sum total_width sections).correction =
      some (.widthSum total_width
        (sections.map (fun s => s.width.getD 0 +
          (total_width - (sections.map (fun s => s.width.getD 0)).sum) / sections.length))
        ((total_width - (sections.map (fun s => s.width.getD 0)).sum) / sections.length)) ∧
    (sections.map (fun s => s.width.getD 0 +
      (total_width - (sections.map (fun s => s.width.getD 0)).sum) / sections.length)).sum
      = total_width := by
  have hie : sections.isEmpty = false := by
    simpa [List.isEmpty_iff] using hne
  have hlen : (sections.length : ℚ) ≠ 0 := by
    exact_mod_cast fun h => hne (List.length_eq_zero.mp (by exact_mod_cast h))
  unfold validate_width_sum at hfail ⊢
  rw [hie] at hfail ⊢
  simp only [Bool.false_eq_true, if_false] at hfail ⊢
  by_cases htol :
      |(sections.map (fun s => s.width.getD 0)).sum - total_width| ≤ (1 : ℚ)/2
  · rw [if_pos htol] at hfail
    simp at hfail
  · rw [if_neg htol] at hfail ⊢
    refine ⟨rfl, ?_⟩
    rw [sum_map_add_const]
    field_simp

/-- Witness for C8: two 30 mm sections against a 100 mm total width fail the
check, and the proposed widths [50, 50] sum to 100. -/
theorem width_sum_correction_sums_witness :
    ([{ width := some 30 }, { width := some 30 }] : List GlassSection) ≠ [] ∧
    (validate_width_sum 100 [{ width := some 30 }, { width := some 30 }]).passed = false ∧
    ((validate_width_sum 100 [{ width := some 30 }, { width := some 30 }]).correction =
      some (.widthSum 100
        (([{ width := some 30 }, { width := some 30 }] : List GlassSection).map
          (fun s => s.width.getD 0 +
            (100 - (([{ width := some 30 }, { width := some 30 }] : List GlassSection).map
              (fun s => s.width.getD 0)).sum) /
              ([{ width := some 30 }, { width := some 30 }] : List GlassSection).length))
        ((100 - (([{ width := some 30 }, { width := some 30 }] : List GlassSection).map
            (fun s => s.width.getD 0)).sum) /
            ([{ width := some 30 }, { width := some 30 }] : List GlassSection).length)) ∧
      (([{ width := some 30 }, { width := some 30 }] : List GlassSection).map
        (fun s => s.width.getD 0 +
          (100 - (([{ width := some 30 }, { width := some 30 }] : List GlassSection).map
            (fun s => s.width.getD 0)).sum) /
            ([{ width := some 30 }, { width := some 30 }] : List GlassSection).length)).sum
        = 100) :=
  ⟨List.cons_ne_nil _ _, by norm_num [validate_width_sum],
    width_sum_correction_sums 100 _ (List.cons_ne_nil _ _)
      (by norm_num [validate_width_sum])⟩

/-- C10 amended: for every extraction, `calculate_weight` returns exactly
density × (w·h·t − Σ π·(d/2)²·t) with dimensions converted to metres and no
clamping at zero; whenever thickness and density are positive the result is
negative exactly when the holes' summed cross-section area exceeds
width × height. -/
theorem calculate_weight_spec (piv density : ℚ) (e : Extraction) :
    WeightSpecHolds piv density e := by
  have hval : calculate_weight piv e density =
      density * ((extDimensions e).width.getD 0 / 1000 *
        ((extDimensions e).height.getD 0 / 1000) *
        ((extDimensions e).thickness.getD 0 / 1000)
        - ((extHoles e).map (fun hole =>
            piv * (hole.diameter.getD 0 / 1000 / 2) ^ 2 *
              ((extDimensions e).thickness.getD 0 / 1000))).sum) := by
    unfold calculate_weight extDimensions extHoles
    dsimp only
    rw [foldl_sub_sum (fun hole : Hole =>
      piv * (hole.diameter.getD 0 / 1000 / 2) ^ 2 *
        ((e.dimensions.getD {}).thickness.getD 0 / 1000))]
    ring
  refine ⟨hval, fun ht hd => ?_⟩
  have hmap : ((extHoles e).map (fun hole =>
      piv * (hole.diameter.getD 0 / 1000 / 2) ^ 2 *
        ((extDimensions e).thickness.getD 0 / 1000))).sum =
      (extDimensions e).thickness.getD 0 / 1000 / 1000000 *
        holesCrossSection piv (extHoles e) := by
    unfold holesCrossSection
    rw [← List.sum_map_mul_left]
    congr 1
    refine List.map_congr_left ?_
    intro hole _
    ring
  have hrw : calculate_weight piv e density =
      ((extDimensions e).width.getD 0 * (extDimensions e).height.getD 0 -
          holesCrossSection piv (extHoles e)) *
        (density * ((extDimensions e).thickness.getD 0 / 1000) / 1000000) := by
    rw [hval, hmap]
    ring
  have hc : 0 < density * ((extDimensions e).thickness.getD 0 / 1000) / 1000000 := by
    positivity
  rw [hrw, mul_neg_iff]
  constructor
  · rintro (⟨h1, h2⟩ | ⟨h1, h2⟩)
    · linarith
    · linarith
  · intro hlt
    right
    exact ⟨by linarith, hc⟩

/-- Concrete extraction for the C10 witness: 1000×500×10 mm panel with one
100 mm hole. -/
def weightWitnessExt : Extraction :=
  { dimensions := some { width := some 1000, height := some 500, thickness := some 10 },
    holes := some [{ diameter := some 100 }] }

/-- Witness for C10's amended theorem at `weightWitnessExt`, with π stood in
by 355/113: the closed form holds, and the inner positivity hypotheses of
the sign clause are discharged at this concrete input. -/
theorem calculate_weight_spec_witness :
    WeightSpecHolds (355/113) 2500 weightWitnessExt ∧
    0 < (extDimensions weightWitnessExt).thickness.getD 0 ∧ (0 : ℚ) < 2500 ∧
    (calculate_weight (355/113) weightWitnessExt 2500 < 0 ↔
      (extDimensions weightWitnessExt).width.getD 0 *
          (extDimensions weightWitnessExt).height.getD 0 <
        holesCrossSection (355/113) (extHoles weightWitnessExt)) :=
  ⟨calculate_weight_spec (355/113) 2500 weightWitnessExt,
    by norm_num [extDimensions, weightWitnessExt], by norm_num,
    (calculate_weight_spec (355/113) 2500 weightWitnessExt).2
      (by norm_num [extDimensions, weightWitnessExt]) (by norm_num)⟩

/-- Concrete extraction refuting C10 as stated: zero thickness, one huge
hole whose cross-section dwarfs width × height. -/
def zeroThicknessExt : Extraction :=
  { dimensions := some { width := some 100, height := some 100, thickness := some 0 },
    holes := some [{ diameter := some 10000 }] }

/-- C10 counterexample: at zero thickness the holes' summed cross-section
area exceeds width × height, yet `calculate_weight` returns 0, which is not
negative. -/
theorem weight_not_negative_at_zero_thickness :
    (extDimensions zeroThicknessExt).width.getD 0 *
        (extDimensions zeroThicknessExt).height.getD 0 <
      holesCrossSection (355/113) (extHoles zeroThicknessExt) ∧
    calculate_weight (355/113) zeroThicknessExt 2500 = 0 ∧
    ¬ calculate_weight (355/113) zeroThicknessExt 2500 < 0 := by
  refine ⟨?_, ?_, ?_⟩
  · norm_num [extDimensions, extHoles, zeroThicknessExt, holesCrossSection]
  · norm_num [calculate_weight, zeroThicknessExt]
  · rw [show calculate_weight (355/113) zeroThicknessExt 2500 = 0 from by
      norm_num [calculate_weight, zeroThicknessExt]]
    norm_num

/-- C1: `JudgeAgent.review` approves exactly when no validation check
failed with severity "error"; the checks that failed with severity
"warning" are exactly what fills the returned warnings list, so they never
block approval. -/
theorem review_approved_iff_no_errors (a : JudgeAgent) (extraction : Extraction) :
    ((a.review extraction).1.approved = true ↔
      ∀ v ∈ reviewValidations extraction, v.passed = false → v.severity ≠ "error") ∧
    (a.review extraction).1.warnings =
      ((reviewValidations extraction).filter
        (fun v => !v.passed && v.severity == "warning")).map (·.message) := by
  constructor
  · have happ : (a.review extraction).1.approved =
        (((reviewValidations extraction).filter
          (fun v => !v.passed && v.severity == "error")).length == 0) := rfl
    rw [happ, beq_iff_eq, List.length_eq_zero, List.filter_eq_nil_iff]
    constructor
    · intro hall v hv hp
      have := hall v hv
      simp [hp] at this
      exact this
    · intro hall v hv
      simp only [Bool.and_eq_true, Bool.not_eq_true', beq_iff_eq, not_and]
      intro hp
      exact fun hs => hall v hv hp hs
  · rfl

/-- C2: for every extraction dictionary (well-typed per the embedding),
`JudgeAgent.review` returns a result — the embedding is a total function —
in which the detected defects are exactly the messages of the failed
error-severity checks and of the failed warning-severity checks. -/
theorem review_total_collects_defects (a : JudgeAgent) (extraction : Extraction) :
    ∃ r a2, a.review extraction = (r, a2) ∧
      r.errors = ((reviewValidations extraction).filter
        (fun v => !v.passed && v.severity == "error")).map (·.message) ∧
      r.warnings = ((reviewValidations extraction).filter
        (fun v => !v.passed && v.severity == "warning")).map (·.message) :=
  ⟨_, _, rfl, rfl, rfl⟩

/-- C6 counterexample: two successive reviews of the same (empty)
extraction return different result dictionaries — the iteration counter in
the result grows with the agent's mutable call count. -/
theorem review_results_differ_across_calls :
    ((JudgeAgent.review {} {}).2.review {}).1 ≠ (JudgeAgent.review {} {}).1 := by
  intro h
  have h2 := congrArg ReviewResult.iteration h
  simp [JudgeAgent.review, reviewResult] at h2

/-- C6 amended: the substantive fields of the review result — approved,
confidence, feedback, errors, warnings — depend only on the extraction, not
on the agent's call history; only the iteration / can_continue bookkeeping
fields vary between calls. -/
theorem review_core_depends_only_on_extraction (a b : JudgeAgent)
    (extraction : Extraction) :
    (a.review extraction).1.approved = (b.review extraction).1.approved ∧
    (a.review extraction).1.confidence = (b.review extraction).1.confidence ∧
    (a.review extraction).1.feedback = (b.review extraction).1.feedback ∧
    (a.review extraction).1.errors = (b.review extraction).1.errors ∧
    (a.review extraction).1.warnings = (b.review extraction).1.warnings :=
  ⟨rfl, rfl, rfl, rfl, rfl⟩
